import Mathlib

/-!
Verification of the notification-dispatch scheduler of the
`event_organizer_bot` repository (`src/utils/scheduler.py`, with the data
model from `src/database/models.py`).  Time is modelled in whole seconds:
`datetime` values and `timedelta`s become `Int` (seconds), so
`timedelta(days=7) = 604800`, `timedelta(hours=2) = 7200`,
`timedelta(hours=1) = 3600`.  Calendar rendering (`strftime`) is abstracted
to the decimal rendering of the timestamp, which is injective and therefore
preserves every identity the theorems below state about messages.
-/

/-- The five per-tier reminder flags of the `Event` ORM model
(`reminder_week`, `reminder_3days`, `reminder_day`, `reminder_hours`,
`reminder_hour`), i.e. the attribute names `getattr`/`setattr` receive in
`should_send_reminder` / `mark_reminder_sent`. -/
inductive ReminderField where
  | reminder_week
  | reminder_3days
  | reminder_day
  | reminder_hours
  | reminder_hour
deriving DecidableEq

/-- The `Event` ORM model (`models.py`): name, description, a date, a
status string (`"active"` / `"completed"`), and five reminder flags. -/
structure Event where
  id : Nat
  name : String
  description : String
  event_date : Int
  status : String
  reminder_week : Bool
  reminder_3days : Bool
  reminder_day : Bool
  reminder_hours : Bool
  reminder_hour : Bool
deriving DecidableEq

/-- `getattr(event, reminder_type)` restricted to the five flag fields. -/
def Event.getFlag (e : Event) : ReminderField → Bool
  | .reminder_week => e.reminder_week
  | .reminder_3days => e.reminder_3days
  | .reminder_day => e.reminder_day
  | .reminder_hours => e.reminder_hours
  | .reminder_hour => e.reminder_hour

/-- `setattr(event, reminder_type, b)` restricted to the five flag fields. -/
def Event.setFlag (e : Event) (f : ReminderField) (b : Bool) : Event :=
  match f with
  | .reminder_week => { e with reminder_week := b }
  | .reminder_3days => { e with reminder_3days := b }
  | .reminder_day => { e with reminder_day := b }
  | .reminder_hours => { e with reminder_hours := b }
  | .reminder_hour => { e with reminder_hour := b }

/-- The `User` ORM model, restricted to the fields the scheduler reads. -/
structure UserRec where
  user_id : Nat
  is_admin : Bool
deriving DecidableEq

/-- The `BroadcastQueue` row: id, optional text, optional media id and
media kind, creation order, and the sent marker. -/
structure BroadcastEntry where
  id : Nat
  text : Option String
  media_id : Option String
  media_type : Option String
  created : Nat
  is_sent : Bool
deriving DecidableEq

/-- The slice of the datastore the scheduler touches: users, events,
registrations (`(user_id, event_id)` pairs) and the broadcast queue. -/
structure Store where
  users : List UserRec
  events : List Event
  registrations : List (Nat × Nat)
  queue : List BroadcastEntry
deriving DecidableEq

/-- `User.get_all_user_ids` (`models.py`): the ids of all users. -/
def get_all_user_ids (users : List UserRec) : List Nat :=
  users.map (fun u => u.user_id)

/-- `User.get_all_admins` (`models.py`): all users with `is_admin`. -/
def get_all_admins (users : List UserRec) : List UserRec :=
  users.filter (fun u => u.is_admin)

/-- `Registration.get_registered_users` (`models.py`): ids of the users
registered for the given event. -/
def get_registered_users (regs : List (Nat × Nat)) (event_id : Nat) : List Nat :=
  (regs.filter (fun r => r.2 = event_id)).map (fun r => r.1)

/-- `Event.get_active_events` (`models.py`): the events whose status is
`"active"`. -/
def get_active_events (events : List Event) : List Event :=
  events.filter (fun e => e.status = "active")

/-- One inline-keyboard button (`keyboards.py`, `create_inline_kb`). -/
structure InlineButton where
  text : String
  callback_data : String
deriving DecidableEq

/-- `create_inline_kb` (`keyboards.py`): builds buttons from
(text, callback_data) pairs. -/
def create_inline_kb (buttons : List (String × String)) : List InlineButton :=
  buttons.map (fun b => ⟨b.1, b.2⟩)

/-- `get_registration_kb` (`keyboards.py`): the registration keyboard for
an event. -/
def get_registration_kb (event_id : Nat) : List InlineButton :=
  create_inline_kb [("Зарегистрироваться", "register_" ++ toString event_id)]

/-- `russian_plural` (`scheduler.py`). -/
def russian_plural (n : Int) (variants : String × String × String) : String :=
  if 10 ≤ Int.fmod n 100 ∧ Int.fmod n 100 ≤ 20 then variants.2.2
  else if Int.fmod n 10 = 1 then variants.1
  else if 2 ≤ Int.fmod n 10 ∧ Int.fmod n 10 ≤ 4 then variants.2.1
  else variants.2.2

/-- Python's `timedelta.days`: floor division of the total seconds. -/
def timedelta_days (t : Int) : Int :=
  Int.fdiv t 86400

/-- Python's `timedelta.seconds`: the sub-day remainder, in `[0, 86400)`. -/
def timedelta_seconds (t : Int) : Int :=
  Int.fmod t 86400

/-- `format_time_difference` (`scheduler.py`). -/
def format_time_difference (diff : Int) : String :=
  let days := timedelta_days diff
  let hours := Int.fdiv (timedelta_seconds diff) 3600
  let minutes := Int.fdiv (Int.fmod (timedelta_seconds diff) 3600) 60
  let parts :=
    (if days > 0 then [toString days ++ " " ++ russian_plural days ("день", "дня", "дней")] else [])
    ++ (if hours > 0 then [toString hours ++ " " ++ russian_plural hours ("час", "часа", "часов")] else [])
    ++ (if days = 0 ∧ minutes > 0 then
          [toString minutes ++ " " ++ russian_plural minutes ("минута", "минуты", "минут")] else [])
  String.intercalate ", " parts

/-- `REMINDER_CONFIGS` (`scheduler.py`): lead interval (seconds), flag
field, unit word.  7 days, 3 days, 24 hours, 7 hours, 4 hours. -/
def REMINDER_CONFIGS : List (Int × ReminderField × String) :=
  [(604800, ReminderField.reminder_week, "дней"),
   (259200, ReminderField.reminder_3days, "дня"),
   (86400, ReminderField.reminder_day, "часа"),
   (25200, ReminderField.reminder_hours, "часов"),
   (14400, ReminderField.reminder_hour, "часа")]

/-- The lead interval of each tier, as listed in `REMINDER_CONFIGS`. -/
def intervalOf : ReminderField → Int
  | .reminder_week => 604800
  | .reminder_3days => 259200
  | .reminder_day => 86400
  | .reminder_hours => 25200
  | .reminder_hour => 14400

/-- `should_send_reminder` (`scheduler.py`): true iff the tier's flag is
still false. -/
def should_send_reminder (event : Event) (reminder_type : ReminderField) : Bool :=
  ! event.getFlag reminder_type

/-- `mark_reminder_sent` (`scheduler.py`): sets the flag and commits. -/
def mark_reminder_sent (event : Event) (reminder_type : ReminderField) : Event :=
  event.setFlag reminder_type true

/-- The tier-specific reminder text built in `send_event_reminders`
(strftime of the date abstracted to the timestamp's decimal rendering). -/
def reminder_message (e : Event) (diff : Int) : String :=
  "💡 <b>Мероприятие:</b> " ++ e.name ++ "\n\n<i>" ++ e.description
    ++ "</i>\n\n📅 <b>Дата:</b> " ++ toString e.event_date
    ++ "\n\n⏰ Начнется через " ++ format_time_difference diff ++ "!"

/-- One attempted Telegram send inside the reminder fan-out: recipient,
text, optional reply keyboard. -/
structure Delivery where
  user_id : Nat
  text : String
  keyboard : Option (List InlineButton)
deriving DecidableEq

/-- The observable outcome of one `send_reminder` call: the attempted
deliveries, the recipients whose send succeeded, the recipients for which
`safe_send_telegram` caught a `TelegramAPIError` and logged it, and
whether the outer `except Exception` handler fired. -/
structure ReminderOut where
  attempted : List Delivery
  delivered : List Nat
  errorLogged : List Nat
  exceptionLogged : Bool
deriving DecidableEq

/-- `send_reminder` (`scheduler.py` lines 31-65).  The two datastore reads
(`Registration.get_registered_users`, `User.get_all_user_ids`) are passed
as `Except` values so a fetch failure can be modelled; `failSet` is the
set of recipients whose `bot.send_message` raises `TelegramAPIError`.
The whole body sits in `try: ... except Exception: logger.exception(...)`,
so the call always returns normally (`Except.ok`). -/
def send_reminder (fetchRegistered fetchAll : Except String (List Nat))
    (failSet : List Nat) (event_id : Nat) (text : String)
    (delta_days : Int) : Except String ReminderOut :=
  match fetchRegistered, fetchAll with
  | Except.ok registered_users, Except.ok all_users =>
      Except.ok
        { attempted := all_users.map (fun user_id =>
            if registered_users.contains user_id then
              ⟨user_id, text, none⟩
            else
              ⟨user_id, text ++ "\n\nХотите зарегистрироваться?",
                some (get_registration_kb event_id)⟩),
          delivered := all_users.filter (fun u => !failSet.contains u),
          errorLogged := all_users.filter (fun u => failSet.contains u),
          exceptionLogged := false }
  | _, _ => Except.ok ⟨[], [], [], true⟩

deriving instance DecidableEq for Except

/-- The state threaded through the tier loop of `send_event_reminders`:
the (possibly flag-mutated) event, the tiers fired so far, and the
`send_reminder` outcomes so far. -/
structure EvalResult where
  event : Event
  fired : List ReminderField
  out : List (Except String ReminderOut)
deriving DecidableEq

/-- One iteration of the `for interval, reminder_field, _ in
REMINDER_CONFIGS` loop in `send_event_reminders`: fire iff
`interval >= diff > interval - 2h` and the flag is still false. -/
def tierStep (all_users registered failSet : List Nat) (diff : Int)
    (acc : EvalResult) (cfg : Int × ReminderField × String) : EvalResult :=
  if cfg.1 ≥ diff ∧ diff > cfg.1 - 7200 ∧ should_send_reminder acc.event cfg.2.1 = true then
    { event := mark_reminder_sent acc.event cfg.2.1,
      fired := acc.fired ++ [cfg.2.1],
      out := acc.out ++ [send_reminder (Except.ok registered) (Except.ok all_users)
        failSet acc.event.id (reminder_message acc.event diff) (timedelta_days cfg.1)] }
  else acc

/-- `send_event_reminders` (`scheduler.py` lines 141-156): computes
`diff = event.event_date - now` once, then runs the tier loop. -/
def send_event_reminders (all_users registered failSet : List Nat)
    (event : Event) (now : Int) : EvalResult :=
  REMINDER_CONFIGS.foldl
    (tierStep all_users registered failSet (event.event_date - now))
    ⟨event, [], []⟩

/-- A tier fires on one `send_event_reminders` evaluation. -/
def tierFires (all_users registered failSet : List Nat) (event : Event)
    (now : Int) (f : ReminderField) : Prop :=
  f ∈ (send_event_reminders all_users registered failSet event now).fired

/-- The completion summary built in `notify_admins` (`scheduler.py`
lines 17-28), with `strftime` abstracted as in `reminder_message`. -/
def completion_message (e : Event) : String :=
  "🔔 <b>Событие завершено!</b>\n\n📌 <b>Название:</b> " ++ e.name
    ++ "\n\n🗓 <b>Дата:</b> " ++ toString e.event_date
    ++ "\n\n📖 <b>Описание:</b> <i>" ++ e.description ++ "</i>\n"

/-- `notify_admins` (`scheduler.py`): sends the completion summary to
every admin (each send goes through `safe_send_telegram`, which swallows
transport errors, so every admin is attempted). -/
def notify_admins (users : List UserRec) (e : Event) : List (Nat × String) :=
  (get_all_admins users).map (fun a => (a.user_id, completion_message e))

/-- The per-event outcome of one `check_events` iteration. -/
structure ScanOut where
  event : Event
  fired : List ReminderField
  out : List (Except String ReminderOut)
  notices : List (Nat × String)
deriving DecidableEq

/-- The body of the `for event in events` loop of `check_events`
(`scheduler.py` lines 159-171): run `send_event_reminders`, then if
`now > event.event_date + timedelta(hours=1)` set the status to
`"completed"`, notify every admin, and commit. -/
def check_one_event (s : Store) (failSet : List Nat) (now : Int)
    (event : Event) : ScanOut :=
  let r := send_event_reminders (get_all_user_ids s.users)
    (get_registered_users s.registrations event.id) failSet event now
  if now > r.event.event_date + 3600 then
    let completed := { r.event with status := "completed" }
    ⟨completed, r.fired, r.out, notify_admins s.users completed⟩
  else
    ⟨r.event, r.fired, r.out, []⟩

/-- `check_events` (`scheduler.py`): fetches the active events and
processes each; the store's event list keeps non-active events untouched,
and only active events contribute admin notices. -/
def check_events (s : Store) (failSet : List Nat) (now : Int) :
    Store × List (Nat × String) :=
  ( { s with events := s.events.map (fun e =>
        if e.status = "active" then (check_one_event s failSet now e).event else e) },
    ((get_active_events s.events).map
      (fun e => (check_one_event s failSet now e).notices)).flatten )

/-- Modelled from the spec: the `BroadcastQueue.get_pending_messages`
classmethod is imported by `scheduler.py` and `service_handlers.py` but its
definition is not under `src/`.  Spec §4.3/§6: fetch the single oldest
`BroadcastEntry` not yet marked sent, by creation order, limit 1 (empty
list if none is pending).  `older` is the order-by-creation comparator the
limit-1 query minimises with. -/
def older (best : Option BroadcastEntry) (m : BroadcastEntry) : Option BroadcastEntry :=
  match best with
  | none => some m
  | some b => if m.created < b.created then some m else some b

/-- Modelled from the spec (see `older`): the limit-1 pending fetch. -/
def get_pending_messages (queue : List BroadcastEntry) : List BroadcastEntry :=
  match (queue.filter (fun m => !m.is_sent)).foldl older none with
  | none => []
  | some m => [m]

/-- Modelled from the spec: the `BroadcastQueue.mark_as_sent` classmethod
is imported by `scheduler.py` but its definition is not under `src/`.
Spec §6: mark the broadcast entry with the given id as sent. -/
def mark_as_sent (queue : List BroadcastEntry) (message_id : Nat) : List BroadcastEntry :=
  queue.map (fun m => if m.id = message_id then { m with is_sent := true } else m)

/-- `get_pending_data_for_single_broadcast` (`scheduler.py` lines
174-186): all user ids plus the earliest pending message (the first of
the limit-1 query, `none` if the queue has no pending entry). -/
def get_pending_data_for_single_broadcast (s : Store) :
    List Nat × Option BroadcastEntry :=
  (get_all_user_ids s.users, (get_pending_messages s.queue).head?)

/-- The payload dispatched per recipient in `send_to_user`
(`scheduler.py` lines 204-238): one constructor per `bot.send_*` call. -/
inductive Payload where
  | photo (media_id : Option String) (caption : String)
  | voice (media_id : Option String) (caption : String)
  | video_note (media_id : Option String)
  | video (media_id : Option String) (caption : String)
  | message (text : Option String)
deriving DecidableEq

/-- The `media_type` dispatch of `send_to_user`: photo, voice, video_note
and video each map to their dedicated send call (captions fall back to
`""` via `message.text or ""`); anything else goes through the plain
`bot.send_message(user_id, message.text)`. -/
def broadcast_payload (m : BroadcastEntry) : Payload :=
  if m.media_type = some "photo" then Payload.photo m.media_id (m.text.getD "")
  else if m.media_type = some "voice" then Payload.voice m.media_id (m.text.getD "")
  else if m.media_type = some "video_note" then Payload.video_note m.media_id
  else if m.media_type = some "video" then Payload.video m.media_id (m.text.getD "")
  else Payload.message m.text

/-- The observable outcome of one `process_single_broadcast_message`
call: attempted sends, the `success`/`errors` counters, the updated
queue, the id marked sent (if any), and whether the outer
`except Exception` handler fired. -/
structure BroadcastOut where
  sends : List (Nat × Payload)
  success : Nat
  errors : Nat
  queue : List BroadcastEntry
  drained : Option Nat
  exceptionLogged : Bool
deriving DecidableEq

/-- `process_single_broadcast_message` (`scheduler.py` lines 190-248).
`fetched` is the result of `get_pending_data_for_single_broadcast` (an
`Except` so a datastore failure can be modelled); `failSet` is the set of
recipients whose send raises.  An empty queue is a logged no-op; each
recipient is sent to inside its own `try/except` which bumps `success`
or `errors`; afterwards the message is marked sent regardless of
per-recipient outcomes.  The whole body sits in `try: ... except
Exception: logger.exception(...)`, so the call always returns normally. -/
def process_single_broadcast_message (queue : List BroadcastEntry)
    (fetched : Except String (List Nat × Option BroadcastEntry))
    (failSet : List Nat) : Except String BroadcastOut :=
  match fetched with
  | Except.error _ => Except.ok ⟨[], 0, 0, queue, none, true⟩
  | Except.ok (_, none) => Except.ok ⟨[], 0, 0, queue, none, false⟩
  | Except.ok (users, some m) =>
      Except.ok
        { sends := users.map (fun u => (u, broadcast_payload m)),
          success := (users.filter (fun u => !failSet.contains u)).length,
          errors := (users.filter (fun u => failSet.contains u)).length,
          queue := mark_as_sent queue m.id,
          drained := some m.id,
          exceptionLogged := false }

/-- The spec's `drainOne()`: `process_single_broadcast_message` fed by
`get_pending_data_for_single_broadcast` on the current store. -/
def drainOne (s : Store) (failSet : List Nat) : Except String BroadcastOut :=
  process_single_broadcast_message s.queue
    (Except.ok (get_pending_data_for_single_broadcast s)) failSet

/-- `MAX_CONCURRENT_TASKS` (`scheduler.py` line 14): the fan-out
concurrency cap. -/
def MAX_CONCURRENT_TASKS : Nat := 20

/-- State of the `asyncio.Semaphore`-guarded fan-out (`Semaphore(cap)` in
`send_reminder` and `process_single_broadcast_message`): the cap, the
tasks not yet started, the sends currently in flight (holding a permit),
and the finished sends. -/
structure SemState where
  cap : Nat
  pending : Nat
  inFlight : Nat
  done : Nat
deriving DecidableEq

/-- Small-step semantics of the guarded fan-out: `acquire` starts one
pending send if a permit is free (`async with semaphore` blocks
otherwise), `release` finishes an in-flight send and returns its
permit. -/
inductive SemStep : SemState → SemState → Prop where
  | acquire (s : SemState) (hcap : s.inFlight < s.cap) (hp : 0 < s.pending) :
      SemStep s ⟨s.cap, s.pending - 1, s.inFlight + 1, s.done⟩
  | release (s : SemState) (h : 0 < s.inFlight) :
      SemStep s ⟨s.cap, s.pending, s.inFlight - 1, s.done + 1⟩

/-- The fan-out's initial state: all sends pending, none in flight. -/
def semInit (cap tasks : Nat) : SemState := ⟨cap, tasks, 0, 0⟩

/-- The firing window of a tier as a boolean:
`interval ≥ diff > interval − 2h`. -/
def windowB (interval diff : Int) : Bool :=
  decide (interval ≥ diff ∧ diff > interval - 7200)

/-- A sample event at the given date: status active, all flags false. -/
def sampleEvent (date : Int) : Event :=
  ⟨1, "Event", "Description", date, "active", false, false, false, false, false⟩

/-- A sample event whose week flag is already true. -/
def flaggedEvent : Event :=
  ⟨1, "Event", "Description", 0, "active", true, false, false, false, false⟩

/-- A sample store with one admin and one active event. -/
def scanStore : Store := ⟨[⟨10, true⟩], [sampleEvent 0], [], []⟩

/-- Three sample broadcast entries, queued in creation order. -/
def bq1 : BroadcastEntry := ⟨1, some "a", none, some "text", 1, false⟩

/-- Second sample broadcast entry. -/
def bq2 : BroadcastEntry := ⟨2, some "b", none, some "text", 2, false⟩

/-- Third sample broadcast entry. -/
def bq3 : BroadcastEntry := ⟨3, some "c", none, some "text", 3, false⟩

/-- A store with one user and the three queued broadcasts. -/
def broadcastStore : Store := ⟨[⟨1, false⟩], [], [], [bq1, bq2, bq3]⟩

/-- The same store after the first drain marked `bq1` sent. -/
def broadcastStore2 : Store :=
  ⟨[⟨1, false⟩], [], [], [⟨1, some "a", none, some "text", 1, true⟩, bq2, bq3]⟩

/-- The sample broadcast message of the five-recipient fan-out run. -/
def m0 : BroadcastEntry := ⟨1, some "hello", none, some "text", 1, false⟩

/-- The outcome of broadcasting `m0` to recipients 1..5 with recipient 3
failing: 4 successes, 1 error, the entry marked sent. -/
def out0 : BroadcastOut :=
  ⟨[(1, Payload.message (some "hello")), (2, Payload.message (some "hello")),
      (3, Payload.message (some "hello")), (4, Payload.message (some "hello")),
      (5, Payload.message (some "hello"))],
    4, 1, [⟨1, some "hello", none, some "text", 1, true⟩], some 1, false⟩

/-- A sample broadcast entry with an unrecognized media kind. -/
def m10 : BroadcastEntry := ⟨4, some "txt", some "mid", some "sticker", 1, false⟩

lemma getFlag_setFlag (e : Event) (f g : ReminderField) (b : Bool) :
    (e.setFlag g b).getFlag f = if f = g then b else e.getFlag f := by
  cases f <;> cases g <;> simp [Event.setFlag, Event.getFlag]

lemma setFlag_event_date (e : Event) (f : ReminderField) (b : Bool) :
    (e.setFlag f b).event_date = e.event_date := by
  cases f <;> rfl

lemma setFlag_status (e : Event) (f : ReminderField) (b : Bool) :
    (e.setFlag f b).status = e.status := by
  cases f <;> rfl

lemma setFlag_name (e : Event) (f : ReminderField) (b : Bool) :
    (e.setFlag f b).name = e.name := by
  cases f <;> rfl

lemma setFlag_description (e : Event) (f : ReminderField) (b : Bool) :
    (e.setFlag f b).description = e.description := by
  cases f <;> rfl

lemma setFlag_id (e : Event) (f : ReminderField) (b : Bool) :
    (e.setFlag f b).id = e.id := by
  cases f <;> rfl

lemma getFlag_status_update (e : Event) (st : String) (f : ReminderField) :
    ({ e with status := st } : Event).getFlag f = e.getFlag f := by
  cases f <;> rfl

lemma tierStep_skip (au rg fs : List Nat) (d : Int) (acc : EvalResult)
    (i : Int) (fld : ReminderField) (w : String)
    (h : ¬(i ≥ d ∧ d > i - 7200 ∧ should_send_reminder acc.event fld = true)) :
    tierStep au rg fs d acc (i, fld, w) = acc := by
  unfold tierStep
  exact if_neg h

lemma tierStep_fire (au rg fs : List Nat) (d : Int) (acc : EvalResult)
    (i : Int) (fld : ReminderField) (w : String)
    (h : i ≥ d ∧ d > i - 7200 ∧ should_send_reminder acc.event fld = true) :
    tierStep au rg fs d acc (i, fld, w) =
      ⟨mark_reminder_sent acc.event fld, acc.fired ++ [fld],
        acc.out ++ [send_reminder (Except.ok rg) (Except.ok au) fs acc.event.id
          (reminder_message acc.event d) (timedelta_days i)]⟩ := by
  unfold tierStep
  exact if_pos h

lemma tierStep_event_date (au rg fs : List Nat) (d : Int) (acc : EvalResult)
    (cfg : Int × ReminderField × String) :
    (tierStep au rg fs d acc cfg).event.event_date = acc.event.event_date := by
  unfold tierStep
  split
  · simp [mark_reminder_sent, setFlag_event_date]
  · rfl

lemma tierStep_status (au rg fs : List Nat) (d : Int) (acc : EvalResult)
    (cfg : Int × ReminderField × String) :
    (tierStep au rg fs d acc cfg).event.status = acc.event.status := by
  unfold tierStep
  split
  · simp [mark_reminder_sent, setFlag_status]
  · rfl

lemma tierStep_name (au rg fs : List Nat) (d : Int) (acc : EvalResult)
    (cfg : Int × ReminderField × String) :
    (tierStep au rg fs d acc cfg).event.name = acc.event.name := by
  unfold tierStep
  split
  · simp [mark_reminder_sent, setFlag_name]
  · rfl

lemma tierStep_description (au rg fs : List Nat) (d : Int) (acc : EvalResult)
    (cfg : Int × ReminderField × String) :
    (tierStep au rg fs d acc cfg).event.description = acc.event.description := by
  unfold tierStep
  split
  · simp [mark_reminder_sent, setFlag_description]
  · rfl

lemma tierStep_id (au rg fs : List Nat) (d : Int) (acc : EvalResult)
    (cfg : Int × ReminderField × String) :
    (tierStep au rg fs d acc cfg).event.id = acc.event.id := by
  unfold tierStep
  split
  · simp [mark_reminder_sent, setFlag_id]
  · rfl

lemma tierStep_getFlag (au rg fs : List Nat) (d : Int) (acc : EvalResult)
    (i : Int) (fld : ReminderField) (w : String) (f : ReminderField) :
    (tierStep au rg fs d acc (i, fld, w)).event.getFlag f =
      if f = fld then (acc.event.getFlag f || windowB i d)
      else acc.event.getFlag f := by
  by_cases hf : f = fld
  · subst hf
    simp only [if_pos rfl]
    by_cases hc : (i ≥ d ∧ d > i - 7200 ∧ should_send_reminder acc.event f = true)
    · rw [tierStep_fire au rg fs d acc i f w hc]
      obtain ⟨h1, h2, h3⟩ := hc
      simp only [should_send_reminder, Bool.not_eq_true'] at h3
      simp [mark_reminder_sent, getFlag_setFlag, windowB, h1, h2]
    · rw [tierStep_skip au rg fs d acc i f w hc]
      by_cases hwin : (i ≥ d ∧ d > i - 7200)
      · have hfl : acc.event.getFlag f = true := by
          by_contra hfl
          exact hc ⟨hwin.1, hwin.2, by
            simp [should_send_reminder, Bool.not_eq_true] at hfl ⊢
            simp [hfl]⟩
        simp [hfl]
      · simp [windowB, hwin]
  · rw [if_neg hf]
    unfold tierStep
    split
    · simp [mark_reminder_sent, getFlag_setFlag, hf]
    · rfl

lemma tierStep_mem_fired (au rg fs : List Nat) (d : Int) (acc : EvalResult)
    (i : Int) (fld : ReminderField) (w : String) (f : ReminderField) :
    (f ∈ (tierStep au rg fs d acc (i, fld, w)).fired ↔
      f ∈ acc.fired ∨
        (f = fld ∧ windowB i d = true ∧ acc.event.getFlag fld = false)) := by
  by_cases hc : (i ≥ d ∧ d > i - 7200 ∧ should_send_reminder acc.event fld = true)
  · rw [tierStep_fire au rg fs d acc i fld w hc]
    obtain ⟨h1, h2, h3⟩ := hc
    simp only [should_send_reminder, Bool.not_eq_true'] at h3
    simp [windowB, h1, h2, h3]
  · rw [tierStep_skip au rg fs d acc i fld w hc]
    have hfalse : ¬(f = fld ∧ windowB i d = true ∧ acc.event.getFlag fld = false) := by
      rintro ⟨-, hw, hfl⟩
      simp only [windowB, decide_eq_true_eq] at hw
      exact hc ⟨hw.1, hw.2, by simp [should_send_reminder, hfl]⟩
    simp [hfalse]

lemma eval_unfold (au rg fs : List Nat) (e : Event) (now : Int) :
    send_event_reminders au rg fs e now =
      tierStep au rg fs (e.event_date - now)
        (tierStep au rg fs (e.event_date - now)
          (tierStep au rg fs (e.event_date - now)
            (tierStep au rg fs (e.event_date - now)
              (tierStep au rg fs (e.event_date - now) ⟨e, [], []⟩
                (604800, ReminderField.reminder_week, "дней"))
              (259200, ReminderField.reminder_3days, "дня"))
            (86400, ReminderField.reminder_day, "часа"))
          (25200, ReminderField.reminder_hours, "часов"))
        (14400, ReminderField.reminder_hour, "часа") := rfl

lemma eval_event_date (au rg fs : List Nat) (e : Event) (now : Int) :
    (send_event_reminders au rg fs e now).event.event_date = e.event_date := by
  rw [eval_unfold]
  rw [tierStep_event_date, tierStep_event_date, tierStep_event_date,
    tierStep_event_date, tierStep_event_date]

lemma eval_status (au rg fs : List Nat) (e : Event) (now : Int) :
    (send_event_reminders au rg fs e now).event.status = e.status := by
  rw [eval_unfold]
  rw [tierStep_status, tierStep_status, tierStep_status, tierStep_status, tierStep_status]

lemma eval_name (au rg fs : List Nat) (e : Event) (now : Int) :
    (send_event_reminders au rg fs e now).event.name = e.name := by
  rw [eval_unfold]
  rw [tierStep_name, tierStep_name, tierStep_name, tierStep_name, tierStep_name]

lemma eval_description (au rg fs : List Nat) (e : Event) (now : Int) :
    (send_event_reminders au rg fs e now).event.description = e.description := by
  rw [eval_unfold]
  rw [tierStep_description, tierStep_description, tierStep_description,
    tierStep_description, tierStep_description]

lemma eval_id (au rg fs : List Nat) (e : Event) (now : Int) :
    (send_event_reminders au rg fs e now).event.id = e.id := by
  rw [eval_unfold]
  rw [tierStep_id, tierStep_id, tierStep_id, tierStep_id, tierStep_id]

lemma eval_getFlag (au rg fs : List Nat) (e : Event) (now : Int) (f : ReminderField) :
    (send_event_reminders au rg fs e now).event.getFlag f =
      (e.getFlag f || windowB (intervalOf f) (e.event_date - now)) := by
  rw [eval_unfold]
  cases f <;>
    simp [tierStep_getFlag, intervalOf]

lemma eval_mem_fired (au rg fs : List Nat) (e : Event) (now : Int) (f : ReminderField) :
    (f ∈ (send_event_reminders au rg fs e now).fired ↔
      windowB (intervalOf f) (e.event_date - now) = true ∧ e.getFlag f = false) := by
  rw [eval_unfold]
  cases f <;>
    simp [tierStep_mem_fired, tierStep_getFlag, intervalOf]

lemma eval_second_pass (au rg fs au' rg' fs' : List Nat) (e : Event) (now : Int) :
    send_event_reminders au' rg' fs'
        (send_event_reminders au rg fs e now).event now =
      ⟨(send_event_reminders au rg fs e now).event, [], []⟩ := by
  set e' := (send_event_reminders au rg fs e now).event with he'
  have hd : e'.event_date = e.event_date := eval_event_date au rg fs e now
  have hflag : ∀ f : ReminderField,
      windowB (intervalOf f) (e.event_date - now) = true → e'.getFlag f = true := by
    intro f hw
    rw [he', eval_getFlag, hw, Bool.or_true]
  have hskip : ∀ (i : Int) (fld : ReminderField) (w : String) (l : List ReminderField)
      (o : List (Except String ReminderOut)), intervalOf fld = i →
      tierStep au' rg' fs' (e'.event_date - now) ⟨e', l, o⟩ (i, fld, w) = ⟨e', l, o⟩ := by
    intro i fld w l o hi
    apply tierStep_skip
    rintro ⟨h1, h2, h3⟩
    simp only [should_send_reminder, Bool.not_eq_true'] at h3
    have : e'.getFlag fld = true := by
      apply hflag
      rw [hi, ← hd]
      simp only [windowB, decide_eq_true_eq]
      exact ⟨h1, h2⟩
    simp [this] at h3
  rw [eval_unfold]
  rw [hskip 604800 ReminderField.reminder_week "дней" [] [] rfl,
    hskip 259200 ReminderField.reminder_3days "дня" [] [] rfl,
    hskip 86400 ReminderField.reminder_day "часа" [] [] rfl,
    hskip 25200 ReminderField.reminder_hours "часов" [] [] rfl,
    hskip 14400 ReminderField.reminder_hour "часа" [] [] rfl]

lemma eval_scenario (au rg fs : List Nat) (e : Event) (now : Int)
    (hw : e.reminder_week = false) (hdate : e.event_date = now + 601200) :
    send_event_reminders au rg fs e now =
      ⟨{ e with reminder_week := true }, [ReminderField.reminder_week],
        [send_reminder (Except.ok rg) (Except.ok au) fs e.id
          (reminder_message e 601200) 7]⟩ := by
  have hd : e.event_date - now = 601200 := by omega
  rw [eval_unfold, hd]
  rw [tierStep_fire au rg fs 601200 ⟨e, [], []⟩ 604800 ReminderField.reminder_week "дней"
    ⟨by decide, by decide, by simp [should_send_reminder, Event.getFlag, hw]⟩]
  rw [tierStep_skip au rg fs 601200 _ 259200 ReminderField.reminder_3days "дня"
    (fun hc => absurd hc.1 (by decide))]
  rw [tierStep_skip au rg fs 601200 _ 86400 ReminderField.reminder_day "часа"
    (fun hc => absurd hc.1 (by decide))]
  rw [tierStep_skip au rg fs 601200 _ 25200 ReminderField.reminder_hours "часов"
    (fun hc => absurd hc.1 (by decide))]
  rw [tierStep_skip au rg fs 601200 _ 14400 ReminderField.reminder_hour "часа"
    (fun hc => absurd hc.1 (by decide))]
  simp [mark_reminder_sent, Event.setFlag, timedelta_days]

lemma foldl_tierStep_congr (au rg fs au' rg' fs' : List Nat) (d : Int) :
    ∀ (cfgs : List (Int × ReminderField × String)) (acc acc' : EvalResult),
      acc.event = acc'.event → acc.fired = acc'.fired →
      ((cfgs.foldl (tierStep au rg fs d) acc).event =
          (cfgs.foldl (tierStep au' rg' fs' d) acc').event ∧
        (cfgs.foldl (tierStep au rg fs d) acc).fired =
          (cfgs.foldl (tierStep au' rg' fs' d) acc').fired) := by
  intro cfgs
  induction cfgs with
  | nil => intro acc acc' he hf; exact ⟨he, hf⟩
  | cons c cs ih =>
      intro acc acc' he hf
      simp only [List.foldl_cons]
      apply ih
      · unfold tierStep
        rw [he]
        split
        · simp [he]
        · exact he
      · unfold tierStep
        rw [he]
        split
        · simp [hf]
        · exact hf

lemma eval_congr (au rg fs au' rg' fs' : List Nat) (e : Event) (now : Int) :
    (send_event_reminders au rg fs e now).event =
        (send_event_reminders au' rg' fs' e now).event ∧
      (send_event_reminders au rg fs e now).fired =
        (send_event_reminders au' rg' fs' e now).fired :=
  foldl_tierStep_congr au rg fs au' rg' fs' (e.event_date - now)
    REMINDER_CONFIGS ⟨e, [], []⟩ ⟨e, [], []⟩ rfl rfl

lemma foldl_older_keep (b : BroadcastEntry) :
    ∀ (l : List BroadcastEntry), (∀ m ∈ l, ¬ m.created < b.created) →
      l.foldl older (some b) = some b := by
  intro l
  induction l with
  | nil => intro _; rfl
  | cons m t ih =>
      intro h
      have hm : older (some b) m = some b := by
        simp [older, h m (List.mem_cons_self m t)]
      simp only [List.foldl_cons, hm]
      exact ih (fun x hx => h x (List.mem_cons_of_mem m hx))

lemma foldl_older_min :
    ∀ (l : List BroadcastEntry) (b e : BroadcastEntry),
      e ∈ l → (∀ m ∈ l, m ≠ e → e.created < m.created) → e.created < b.created →
      l.foldl older (some b) = some e := by
  intro l
  induction l with
  | nil => intro b e he; simp at he
  | cons m t ih =>
      intro b e he hmin hb
      by_cases hme : m = e
      · subst hme
        have hm : older (some b) m = some m := by simp [older, hb]
        simp only [List.foldl_cons, hm]
        apply foldl_older_keep
        intro x hx
        by_cases hxe : x = m
        · subst hxe; omega
        · have := hmin x (List.mem_cons_of_mem m hx) hxe
          omega
      · have het : e ∈ t := by
          rcases List.mem_cons.mp he with h | h
          · exact absurd h.symm hme
          · exact h
        have hem : e.created < m.created :=
          hmin m (List.mem_cons_self m t) hme
        have hmin' : ∀ x ∈ t, x ≠ e → e.created < x.created :=
          fun x hx => hmin x (List.mem_cons_of_mem m hx)
        simp only [List.foldl_cons, older]
        by_cases hcmp : m.created < b.created
        · rw [if_pos hcmp]
          exact ih m e het hmin' hem
        · rw [if_neg hcmp]
          exact ih b e het hmin' hb

lemma foldl_older_none (l : List BroadcastEntry) (e : BroadcastEntry)
    (he : e ∈ l) (hmin : ∀ m ∈ l, m ≠ e → e.created < m.created) :
    l.foldl older none = some e := by
  cases l with
  | nil => simp at he
  | cons h t =>
      have hfold : (h :: t).foldl older none = t.foldl older (some h) := by
        simp [List.foldl_cons, older]
      rw [hfold]
      by_cases hhe : h = e
      · subst hhe
        apply foldl_older_keep
        intro x hx
        by_cases hxe : x = h
        · subst hxe; omega
        · have := hmin x (List.mem_cons_of_mem h hx) hxe
          omega
      · have het : e ∈ t := by
          rcases List.mem_cons.mp he with hcase | hcase
          · exact absurd hcase.symm hhe
          · exact hcase
        exact foldl_older_min t h e het
          (fun x hx => hmin x (List.mem_cons_of_mem h hx))
          (hmin h (List.mem_cons_self h t) hhe)

lemma get_pending_oldest (queue : List BroadcastEntry) (e : BroadcastEntry)
    (he : e ∈ queue) (hs : e.is_sent = false)
    (hmin : ∀ m ∈ queue, m.is_sent = false → m ≠ e → e.created < m.created) :
    get_pending_messages queue = [e] := by
  unfold get_pending_messages
  have hpend : e ∈ queue.filter (fun m => !m.is_sent) :=
    List.mem_filter.mpr ⟨he, by simp [hs]⟩
  have : (queue.filter (fun m => !m.is_sent)).foldl older none = some e := by
    apply foldl_older_none _ e hpend
    intro m hm hne
    have hm' := List.mem_filter.mp hm
    exact hmin m hm'.1 (by simpa using hm'.2) hne
  rw [this]

lemma get_pending_all_sent (queue : List BroadcastEntry)
    (h : ∀ m ∈ queue, m.is_sent = true) :
    get_pending_messages queue = [] := by
  unfold get_pending_messages
  have : queue.filter (fun m => !m.is_sent) = [] := by
    apply List.filter_eq_nil_iff.mpr
    intro m hm
    simp [h m hm]
  rw [this]
  rfl

lemma mark_as_sent_other (queue : List BroadcastEntry) (i : Nat)
    (m : BroadcastEntry) (hm : m ∈ queue) (hne : m.id ≠ i) :
    m ∈ mark_as_sent queue i := by
  unfold mark_as_sent
  have : (if m.id = i then { m with is_sent := true } else m) = m := by
    rw [if_neg hne]
  rw [← this]
  exact List.mem_map_of_mem _ hm

lemma filter_length_partition (l : List Nat) (p : Nat → Bool) :
    (l.filter (fun u => !p u)).length + (l.filter p).length = l.length := by
  induction l with
  | nil => rfl
  | cons a t ih =>
      cases h : p a <;> simp [List.filter_cons, h] <;> omega

lemma completion_message_status_update (e : Event) (st : String) :
    completion_message { e with status := st } = completion_message e := rfl

/-- C1: for every event and time `now` with `diff = event_date − now`, a
tier with lead interval `I` fires on `send_event_reminders` iff
`I ≥ diff > I − 2h` and its flag is still false; `diff = 7` days fires the
week tier, `diff = 7d − 2h − 1s` does not, `diff = 6d23h` does. -/
theorem C1_tier_window_iff :
    (∀ (au rg fs : List Nat) (e : Event) (now : Int) (f : ReminderField),
        tierFires au rg fs e now f ↔
          (intervalOf f ≥ e.event_date - now ∧
            e.event_date - now > intervalOf f - 7200 ∧ e.getFlag f = false)) ∧
    tierFires [] [] [] (sampleEvent 604800) 0 ReminderField.reminder_week ∧
    ¬ tierFires [] [] [] (sampleEvent 597599) 0 ReminderField.reminder_week ∧
    tierFires [] [] [] (sampleEvent 601200) 0 ReminderField.reminder_week := by
  have main : ∀ (au rg fs : List Nat) (e : Event) (now : Int) (f : ReminderField),
      tierFires au rg fs e now f ↔
        (intervalOf f ≥ e.event_date - now ∧
          e.event_date - now > intervalOf f - 7200 ∧ e.getFlag f = false) := by
    intro au rg fs e now f
    rw [tierFires, eval_mem_fired]
    simp only [windowB, decide_eq_true_eq]
    tauto
  refine ⟨main, ?_, ?_, ?_⟩
  · exact (main _ _ _ _ _ _).mpr (by decide)
  · intro h
    have := (main _ _ _ _ _ _).mp h
    revert this
    decide
  · exact (main _ _ _ _ _ _).mpr (by decide)

/-- C1 witness: the iff applied at the 6d23h boundary input. -/
theorem C1_tier_window_iff_witness :
    tierFires [] [] [] (sampleEvent 601200) 0 ReminderField.reminder_week :=
  (C1_tier_window_iff.1 [] [] [] (sampleEvent 601200) 0
    ReminderField.reminder_week).mpr (by decide)

/-- C2: if `now > event_date + 1h` and the status is still active, the
scan sets the status to completed and sends every admin the completion
summary; the transition never happens at `now ≤ event_date + 1h`; active
fetches contain only active events, and a store holding a completed event
is left unchanged by the scan with no notices. -/
theorem C2_completion_transition :
    (∀ (s : Store) (fs : List Nat) (now : Int) (e : Event),
        e.status = "active" → now > e.event_date + 3600 →
          (check_one_event s fs now e).event.status = "completed" ∧
          (check_one_event s fs now e).notices =
            (get_all_admins s.users).map
              (fun a => (a.user_id, completion_message e))) ∧
    (∀ (s : Store) (fs : List Nat) (now : Int) (e : Event),
        ¬ now > e.event_date + 3600 →
          (check_one_event s fs now e).event.status = e.status) ∧
    (∀ (events : List Event) (e : Event),
        e ∈ get_active_events events → e.status = "active") ∧
    (∀ (users : List UserRec) (regs : List (Nat × Nat))
        (q : List BroadcastEntry) (fs : List Nat) (now : Int) (e : Event),
        e.status = "completed" →
          check_events ⟨users, [e], regs, q⟩ fs now = (⟨users, [e], regs, q⟩, [])) := by
  refine ⟨?_, ?_, ?_, ?_⟩
  · intro s fs now e ha hn
    have hmsg : completion_message
        (send_event_reminders (get_all_user_ids s.users)
          (get_registered_users s.registrations e.id) fs e now).event =
        completion_message e := by
      unfold completion_message
      rw [eval_name, eval_event_date, eval_description]
    have hcond : now > (send_event_reminders (get_all_user_ids s.users)
        (get_registered_users s.registrations e.id) fs e now).event.event_date + 3600 := by
      rw [eval_event_date]
      exact hn
    simp only [check_one_event, if_pos hcond]
    constructor
    · trivial
    · simp only [notify_admins, completion_message_status_update, hmsg]
  · intro s fs now e hn
    simp only [check_one_event, eval_event_date, if_neg hn]
    exact eval_status _ _ _ _ _
  · intro events e he
    have := (List.mem_filter.mp he).2
    simpa using this
  · intro users regs q fs now e hc
    have hne : (e.status = "active") = False := by
      simp [hc]
    simp [check_events, get_active_events, hne, List.filter_cons, hc]

/-- C2 witness: the transition applied to a concrete store and event one
second past the grace hour. -/
theorem C2_completion_transition_witness :
    (check_one_event scanStore [] 3601 (sampleEvent 0)).event.status = "completed" ∧
    (check_one_event scanStore [] 3601 (sampleEvent 0)).notices =
      (get_all_admins scanStore.users).map
        (fun a => (a.user_id, completion_message (sampleEvent 0))) :=
  C2_completion_transition.1 scanStore [] 3601 (sampleEvent 0) rfl (by decide)

/-- C3: `drainOne` selects the strictly oldest unsent entry by creation
order, fans it out to all users and marks exactly that entry sent; with
nothing pending it is a no-op; entries with another id stay in the queue
untouched; with three queued entries one call marks exactly one sent and
a second call sends the next oldest. -/
theorem C3_drain_one_per_trigger :
    (∀ (s : Store) (fs : List Nat) (e : BroadcastEntry),
        e ∈ s.queue → e.is_sent = false →
        (∀ m ∈ s.queue, m.is_sent = false → m ≠ e → e.created < m.created) →
          drainOne s fs =
            Except.ok
              ⟨(get_all_user_ids s.users).map (fun u => (u, broadcast_payload e)),
                ((get_all_user_ids s.users).filter (fun u => !fs.contains u)).length,
                ((get_all_user_ids s.users).filter (fun u => fs.contains u)).length,
                mark_as_sent s.queue e.id, some e.id, false⟩ ∧
          (∀ m ∈ s.queue, m.id ≠ e.id → m ∈ mark_as_sent s.queue e.id)) ∧
    (∀ (s : Store) (fs : List Nat),
        (∀ m ∈ s.queue, m.is_sent = true) →
          drainOne s fs = Except.ok ⟨[], 0, 0, s.queue, none, false⟩) ∧
    drainOne broadcastStore [] =
      Except.ok ⟨[(1, Payload.message (some "a"))], 1, 0,
        [⟨1, some "a", none, some "text", 1, true⟩, bq2, bq3], some 1, false⟩ ∧
    ((mark_as_sent broadcastStore.queue 1).filter (fun m => m.is_sent)).length = 1 ∧
    drainOne broadcastStore2 [] =
      Except.ok ⟨[(1, Payload.message (some "b"))], 1, 0,
        [⟨1, some "a", none, some "text", 1, true⟩,
          ⟨2, some "b", none, some "text", 2, true⟩, bq3], some 2, false⟩ := by
  refine ⟨?_, ?_, by decide, by decide, by decide⟩
  · intro s fs e he hs hmin
    have hp : get_pending_messages s.queue = [e] :=
      get_pending_oldest s.queue e he hs hmin
    constructor
    · unfold drainOne get_pending_data_for_single_broadcast
      rw [hp]
      rfl
    · intro m hm hne
      exact mark_as_sent_other s.queue e.id m hm hne
  · intro s fs h
    have hp : get_pending_messages s.queue = [] := get_pending_all_sent s.queue h
    unfold drainOne get_pending_data_for_single_broadcast
    rw [hp]
    rfl

/-- C3 witness: the general selection applied to the three-entry store. -/
theorem C3_drain_one_per_trigger_witness :
    drainOne broadcastStore [] =
      Except.ok
        ⟨(get_all_user_ids broadcastStore.users).map (fun u => (u, broadcast_payload bq1)),
          ((get_all_user_ids broadcastStore.users).filter (fun u => !([] : List Nat).contains u)).length,
          ((get_all_user_ids broadcastStore.users).filter (fun u => ([] : List Nat).contains u)).length,
          mark_as_sent broadcastStore.queue bq1.id, some bq1.id, false⟩ :=
  (C3_drain_one_per_trigger.1 broadcastStore [] bq1 (by decide) rfl (by decide)).1

/-- C4: a failing recipient is logged and counted, the other recipients
are still attempted, and transport failures never change the tier-flag
update or the sent-marker update; with recipients 1..5 and recipient 3
failing, the broadcast reports 4 successes and 1 error. -/
theorem C4_failure_isolation :
    (∀ (au rg fs fs' : List Nat) (e : Event) (now : Int),
        (send_event_reminders au rg fs e now).event =
            (send_event_reminders au rg fs' e now).event ∧
          (send_event_reminders au rg fs e now).fired =
            (send_event_reminders au rg fs' e now).fired) ∧
    (∀ (q : List BroadcastEntry) (users fs : List Nat) (m : BroadcastEntry)
        (out : BroadcastOut),
        process_single_broadcast_message q (Except.ok (users, some m)) fs =
            Except.ok out →
          out.queue = mark_as_sent q m.id ∧
          out.sends.length = users.length ∧
          out.success + out.errors = users.length ∧
          out.errors = (users.filter (fun u => fs.contains u)).length) ∧
    (∀ (rg au fs : List Nat) (eid : Nat) (t : String) (dd : Int)
        (r : ReminderOut),
        send_reminder (Except.ok rg) (Except.ok au) fs eid t dd = Except.ok r →
          r.attempted.length = au.length ∧
          r.delivered.length + r.errorLogged.length = au.length ∧
          r.errorLogged = au.filter (fun u => fs.contains u)) ∧
    process_single_broadcast_message [m0] (Except.ok ([1, 2, 3, 4, 5], some m0)) [3] =
      Except.ok out0 ∧
    out0.success = 4 ∧ out0.errors = 1 := by
  refine ⟨?_, ?_, ?_, by decide, rfl, rfl⟩
  · intro au rg fs fs' e now
    exact eval_congr au rg fs au rg fs' e now
  · intro q users fs m out h
    simp only [process_single_broadcast_message, Except.ok.injEq] at h
    subst h
    refine ⟨rfl, by simp, ?_, rfl⟩
    exact filter_length_partition users _
  · intro rg au fs eid t dd r h
    simp only [send_reminder, Except.ok.injEq] at h
    subst h
    refine ⟨by simp, ?_, rfl⟩
    exact filter_length_partition au _

/-- C4 witness: the broadcast conclusions applied to the five-recipient
run with recipient 3 failing. -/
theorem C4_failure_isolation_witness :
    out0.queue = mark_as_sent [m0] m0.id ∧
    out0.sends.length = ([1, 2, 3, 4, 5] : List Nat).length ∧
    out0.success + out0.errors = ([1, 2, 3, 4, 5] : List Nat).length ∧
    out0.errors =
      (([1, 2, 3, 4, 5] : List Nat).filter (fun u => ([3] : List Nat).contains u)).length :=
  C4_failure_isolation.2.1 [m0] [1, 2, 3, 4, 5] [3] m0 out0 (by decide)

/-- C5: every reminder flag only ever goes from false to true: it stays
true across further `send_event_reminders` evaluations, across the
periodic scan, and `mark_reminder_sent` never lowers a flag. -/
theorem C5_flag_monotonicity :
    (∀ (au rg fs : List Nat) (e : Event) (now : Int) (f : ReminderField),
        e.getFlag f = true →
          (send_event_reminders au rg fs e now).event.getFlag f = true) ∧
    (∀ (s : Store) (fs : List Nat) (now : Int) (e : Event) (f : ReminderField),
        e.getFlag f = true →
          (check_one_event s fs now e).event.getFlag f = true) ∧
    (∀ (e : Event) (f g : ReminderField),
        e.getFlag g = true → (mark_reminder_sent e f).getFlag g = true) := by
  have h1 : ∀ (au rg fs : List Nat) (e : Event) (now : Int) (f : ReminderField),
      e.getFlag f = true →
        (send_event_reminders au rg fs e now).event.getFlag f = true := by
    intro au rg fs e now f h
    rw [eval_getFlag, h, Bool.true_or]
  refine ⟨h1, ?_, ?_⟩
  · intro s fs now e f h
    unfold check_one_event
    dsimp only
    split
    · rw [getFlag_status_update]
      exact h1 _ _ _ _ _ _ h
    · exact h1 _ _ _ _ _ _ h
  · intro e f g h
    unfold mark_reminder_sent
    rw [getFlag_setFlag]
    by_cases hgf : g = f
    · simp [hgf]
    · simp [hgf, h]

/-- C5 witness: monotonicity applied to an event whose week flag is true. -/
theorem C5_flag_monotonicity_witness :
    (send_event_reminders [] [] [] flaggedEvent 0).event.getFlag
      ReminderField.reminder_week = true :=
  C5_flag_monotonicity.1 [] [] [] flaggedEvent 0 ReminderField.reminder_week rfl

/-- C6: evaluating twice at the same `now` with no intervening mutation
fires nothing the second time: the second pass returns the unchanged
event with empty fired list and no deliveries. -/
theorem C6_evaluate_idempotent :
    ∀ (au rg fs : List Nat) (e : Event) (now : Int),
      send_event_reminders au rg fs
          (send_event_reminders au rg fs e now).event now =
        ⟨(send_event_reminders au rg fs e now).event, [], []⟩ :=
  fun au rg fs e now => eval_second_pass au rg fs au rg fs e now

/-- C7 counterexample: the claim predicts that an error preventing the
deliveries from being scheduled at all (here: both recipient-list fetches
failing) propagates as a fatal error, i.e. `isOk = false`; instead
`send_reminder`'s outer `except Exception` swallows it and the call
returns normally. -/
theorem C7_counterexample :
    ¬ ((send_reminder (Except.error "DB connection lost")
        (Except.error "DB connection lost") [] 1 "msg" 7).isOk = false) := by
  decide

/-- C7 (amended): `fanout` never raises on partial failure, and even an
error that prevents scheduling the deliveries at all is caught and logged
inside the call — both `send_reminder` and
`process_single_broadcast_message` return normally on every input. -/
theorem C7_never_fatal :
    (∀ (fr fa : Except String (List Nat)) (fs : List Nat) (eid : Nat)
        (t : String) (dd : Int),
        (send_reminder fr fa fs eid t dd).isOk = true) ∧
    (∀ (q : List BroadcastEntry)
        (fetched : Except String (List Nat × Option BroadcastEntry))
        (fs : List Nat),
        (process_single_broadcast_message q fetched fs).isOk = true) := by
  constructor
  · intro fr fa fs eid t dd
    cases fr <;> cases fa <;> rfl
  · intro q fetched fs
    rcases fetched with err | ⟨us, m⟩
    · rfl
    · cases m <;> rfl

/-- C8: an event dated `now + 6d23h` with all flags false and status
active fires exactly the week tier: every registered user gets the plain
message with no keyboard, every unregistered user gets the message plus
the registration call-to-action and keyboard; the week flag becomes true,
all other flags stay false, the status stays active. -/
theorem C8_week_scenario :
    ∀ (au rg fs : List Nat) (e : Event) (now : Int),
      e.status = "active" → e.reminder_week = false → e.reminder_3days = false →
      e.reminder_day = false → e.reminder_hours = false → e.reminder_hour = false →
      e.event_date = now + 601200 →
        (send_event_reminders au rg fs e now).fired = [ReminderField.reminder_week] ∧
        (send_event_reminders au rg fs e now).event.reminder_week = true ∧
        (send_event_reminders au rg fs e now).event.reminder_3days = false ∧
        (send_event_reminders au rg fs e now).event.reminder_day = false ∧
        (send_event_reminders au rg fs e now).event.reminder_hours = false ∧
        (send_event_reminders au rg fs e now).event.reminder_hour = false ∧
        (send_event_reminders au rg fs e now).event.status = "active" ∧
        (send_event_reminders au rg fs e now).out =
          [Except.ok
            { attempted := au.map (fun u =>
                if rg.contains u then
                  ⟨u, reminder_message e 601200, none⟩
                else
                  ⟨u, reminder_message e 601200 ++ "\n\nХотите зарегистрироваться?",
                    some (get_registration_kb e.id)⟩),
              delivered := au.filter (fun u => !fs.contains u),
              errorLogged := au.filter (fun u => fs.contains u),
              exceptionLogged := false }] := by
  intro au rg fs e now hst hw h3 hd hh7 hh4 hdate
  rw [eval_scenario au rg fs e now hw hdate]
  exact ⟨rfl, rfl, h3, hd, hh7, hh4, hst, rfl⟩

/-- C8 witness: the scenario applied to a concrete event, two users of
which one is registered. -/
theorem C8_week_scenario_witness :
    (send_event_reminders [1, 2] [1] [] (sampleEvent 601200) 0).fired =
      [ReminderField.reminder_week] :=
  (C8_week_scenario [1, 2] [1] [] (sampleEvent 601200) 0
    rfl rfl rfl rfl rfl rfl (by decide)).1

/-- C9: the fan-out concurrency cap is `MAX_CONCURRENT_TASKS = 20`; in
the semaphore-guarded fan-out semantics, every state reachable from the
initial state keeps at most `cap` sends in flight — in particular with a
cap of 2 and 10 blocked recipients, never more than 2 at once. -/
theorem C9_concurrency_bound :
    MAX_CONCURRENT_TASKS = 20 ∧
    (∀ (cap tasks : Nat) (s : SemState),
        Relation.ReflTransGen SemStep (semInit cap tasks) s →
          s.inFlight ≤ s.cap ∧ s.cap = cap) ∧
    (∀ (s : SemState),
        Relation.ReflTransGen SemStep (semInit 2 10) s → s.inFlight ≤ 2) := by
  have main : ∀ (cap tasks : Nat) (s : SemState),
      Relation.ReflTransGen SemStep (semInit cap tasks) s →
        s.inFlight ≤ s.cap ∧ s.cap = cap := by
    intro cap tasks s h
    induction h with
    | refl => exact ⟨Nat.zero_le _, rfl⟩
    | tail hsteps hstep ih =>
        cases hstep with
        | acquire hcap hp => exact ⟨hcap, ih.2⟩
        | release hfl => exact ⟨le_trans (Nat.sub_le _ _) ih.1, ih.2⟩
  refine ⟨rfl, main, ?_⟩
  intro s h
  have hs := main 2 10 s h
  rw [← hs.2]
  exact hs.1

/-- C9 witness: the bound applied to the initial state of the cap-2,
10-task fan-out. -/
theorem C9_concurrency_bound_witness : (semInit 2 10).inFlight ≤ 2 :=
  C9_concurrency_bound.2.2 (semInit 2 10) Relation.ReflTransGen.refl

/-- C10: a broadcast entry whose media kind is none of photo, voice,
video_note, video — including absent or unrecognized kinds — is delivered
to every recipient through the plain-text send with the entry's text, and
is never rejected before delivery is attempted. -/
theorem C10_unknown_media_plain_text :
    ∀ (m : BroadcastEntry) (users fs : List Nat) (q : List BroadcastEntry),
      m.media_type ≠ some "photo" → m.media_type ≠ some "voice" →
      m.media_type ≠ some "video_note" → m.media_type ≠ some "video" →
        broadcast_payload m = Payload.message m.text ∧
        process_single_broadcast_message q (Except.ok (users, some m)) fs =
          Except.ok
            ⟨users.map (fun u => (u, Payload.message m.text)),
              (users.filter (fun u => !fs.contains u)).length,
              (users.filter (fun u => fs.contains u)).length,
              mark_as_sent q m.id, some m.id, false⟩ := by
  intro m users fs q h1 h2 h3 h4
  have hp : broadcast_payload m = Payload.message m.text := by
    unfold broadcast_payload
    rw [if_neg h1, if_neg h2, if_neg h3, if_neg h4]
  refine ⟨hp, ?_⟩
  simp [process_single_broadcast_message, hp]

/-- C10 witness: the dispatch applied to an entry with media kind
"sticker". -/
theorem C10_unknown_media_plain_text_witness :
    broadcast_payload m10 = Payload.message m10.text :=
  (C10_unknown_media_plain_text m10 [1] [] [] (by decide) (by decide)
    (by decide) (by decide)).1
